import Mathlib

/-!
Shallow embedding of the time-trigger-task engine.

The repository has two parallel implementations of `process_tasks`:
`src/main.py` (pure Python, `zoneinfo` + `requests`) and
`src/python/time_trigger_task/__init__.py` (the package variant, `pytz`
plus a Rust `task_io` binding for file and HTTP I/O).  Both share the
eligibility window, credential resolution and retry logic; they differ in
the order of zone lookup versus timestamp parsing, in how the outgoing
HTTP verb is chosen, and in whether the post-delivery save is guarded by
a try/except.  Both variants are embedded below.

Modelling conventions:
- instants and naive timestamps are rationals (seconds); a zone is an
  offset in minutes supplied by the environment's zone table, `none`
  meaning the zone database does not know the name (Python raises
  `ZoneInfoNotFoundError` / `UnknownTimeZoneError`, both subclasses of
  `KeyError`, not of `ValueError`);
- `strptime` is the environment's `parseNaive`, `none` meaning
  `ValueError`;
- the HTTP transport is an oracle from attempt number to outcome;
- exceptions that escape `process_tasks` are `Except.error`.
-/

namespace TTT

/-- Tolerance window in minutes (`TOLERANCE_MINUTES = 30` in both files). -/
def TOLERANCE_MINUTES : ℚ := 30

/-- Maximum delivery attempts (`MAX_RETRIES = 3` in both files). -/
def MAX_RETRIES : ℕ := 3

/-- Seconds slept between failed attempts (`RETRY_DELAY = 2`). -/
def RETRY_DELAY : ℕ := 2

/-- Per-attempt HTTP timeout in seconds (the literal `20` at both call sites). -/
def REQUEST_TIMEOUT : ℕ := 20

/-- Default zone name used when a task has no `timezone` field. -/
def DEFAULT_TZ : String := "Asia/Shanghai"

/-- The task `body`: the reserved `device_keys` list (absent when the key is
not present in the JSON object) plus the remaining fields, kept opaque. -/
structure Body where
  device_keys : Option (List String)
  extra : List (String × String)
deriving DecidableEq, Repr

/-- One task record as read from a config file. -/
structure TaskRecord where
  executed : Bool
  trigger_time : Option String
  timezone : Option String
  method : Option String
  webhook_url : String
  body : Option Body
  executed_at : Option String
deriving DecidableEq, Repr

/-- The process-wide credential set (`DEVICE_KEYS`), already JSON-decoded:
either a list of key strings or an alias-to-key dictionary (an association
list; Python dict keys are unique, first match wins). -/
inductive Secrets where
  | list (ks : List String)
  | dict (m : List (String × String))
deriving DecidableEq, Repr

/-- Outcome of a single HTTP attempt: a status code, or a transport-level
fault (the exception caught by the retry loop). -/
inductive AttemptOutcome where
  | status (code : ℤ)
  | fault
deriving DecidableEq, Repr

/-- Exceptions that can escape `process_tasks` uncaught. -/
inductive PyErr where
  | keyError
  | ioError
deriving DecidableEq, Repr

/-- Classification of one processed task. -/
inductive Outcome where
  | alreadyDone
  | inert
  | parseSkip
  | notYetDue
  | expired
  | deliveredSaved
  | deliveredUnsaved
  | failed
deriving DecidableEq, Repr

/-- Python's `str.upper()` on the method string (written structurally so
that it evaluates by kernel reduction; `String.toUpper` does not). -/
def pyUpper (s : String) : String := ⟨s.data.map Char.toUpper⟩

/-- One outgoing HTTP request as issued by an attempt. -/
structure HttpRequest where
  verb : String
  url : String
  queryPayload : Option Body
  bodyPayload : Option Body
  timeoutSec : ℕ
deriving DecidableEq, Repr

/-- The environment of one run: zone table, strict-format parser, current
instant and its formatted string, per-url transport oracle, and per-file
save success. -/
structure Env where
  zoneOffsetMin : String → Option ℤ
  parseNaive : String → Option ℚ
  nowUTC : ℚ
  nowStr : String
  transport : String → ℕ → AttemptOutcome
  saveOk : String → Bool

/-! ## Credential resolution (`main.py` lines 104-135, `__init__.py` 83-106) -/

/-- The alias-substitution loop of the dict strategy: for each declared item,
replace it by its mapped value when it is a key of the secret map, keep it
literally otherwise (`for item in original_list: ...`). -/
def substAliases : List String → List (String × String) → List String
  | [], _ => []
  | a :: rest, m =>
      (match m.lookup a with
       | some v => v
       | none => a) :: substAliases rest m

/-- Dict strategy (`elif isinstance(secret_keys, dict)`): when the declared
list is empty and the secret map is not, inject all values of the map;
otherwise run the alias-substitution loop. -/
def resolveMapAll (declared : List String) (m : List (String × String)) : List String :=
  if declared = [] ∧ m ≠ [] then m.map Prod.snd
  else substAliases declared m

/-- Credential resolution on the declared `device_keys` list.  List strategy
(`if isinstance(secret_keys, list)`): a non-empty secret list is unioned in
with duplicates removed (`list(set(payload["device_keys"] + secret_keys))`;
Python's set iteration order is unspecified, `List.dedup` fixes one
duplicate-free representative); an empty secret list leaves the declared
list untouched. -/
def resolveKeys (declared : List String) (secrets : Secrets) : List String :=
  match secrets with
  | .list ks => if ks = [] then declared else (declared ++ ks).dedup
  | .dict m => resolveMapAll declared m

/-- Build the outgoing payload from the record's body: deep-copy the body
(`copy.deepcopy(data.get("body", {}))`), default a missing `device_keys` to
`[]`, then resolve credentials into the copy. -/
def resolvePayload (body : Option Body) (secrets : Secrets) : Body :=
  let b := body.getD ⟨none, []⟩
  let declared := b.device_keys.getD []
  { b with device_keys := some (resolveKeys declared secrets) }

/-! ## Delivery loop (`main.py` lines 137-162, `__init__.py` 108-139) -/

/-- Whether one attempt outcome counts as success: a status code in
`[200, 300)`; a transport fault never. -/
def isSuccess : AttemptOutcome → Bool
  | .status c => 200 ≤ c ∧ c < 300
  | .fault => false

/-- Trace of one delivery: final success flag, number of attempts actually
made, number of inter-attempt delays slept. -/
structure Trace where
  success : Bool
  attempts : ℕ
  delays : ℕ
deriving DecidableEq, Repr

/-- The retry loop from attempt number `attempt` with `remaining` attempts
left in the budget: send, break on success, otherwise sleep `RETRY_DELAY`
and retry unless this was the last attempt. -/
def deliverAux (transport : ℕ → AttemptOutcome) (attempt : ℕ) : ℕ → Trace
  | 0 => ⟨false, 0, 0⟩
  | n + 1 =>
      if isSuccess (transport attempt) then ⟨true, 1, 0⟩
      else if n = 0 then ⟨false, 1, 0⟩
      else
        let t := deliverAux transport (attempt + 1) n
        ⟨t.success, t.attempts + 1, t.delays + 1⟩

/-- One task's delivery: attempts numbered `1..MAX_RETRIES`. -/
def deliver (transport : ℕ → AttemptOutcome) : Trace :=
  deliverAux transport 1 MAX_RETRIES

/-! ## Request construction -/

/-- One attempt's request in `main.py`: `requests.get(url, params=payload,
timeout=20)` when the upper-cased method is `GET`, otherwise
`requests.post(url, json=payload, timeout=20)` — the wire verb is `POST`
for every non-GET configured method. -/
def sendOnceMain (method url : String) (payload : Body) : HttpRequest :=
  if method = "GET" then ⟨"GET", url, some payload, none, REQUEST_TIMEOUT⟩
  else ⟨"POST", url, none, some payload, REQUEST_TIMEOUT⟩

/-- Modelled from the spec: the Rust binding `task_io.send_request(method,
url, payload, 20)` (its Rust source is not under `src/`) sends one request
with the given method — GET sends the payload as query parameters, any
other verb sends it as a request body — with the given timeout. -/
def sendOncePkg (method url : String) (payload : Body) : HttpRequest :=
  if method = "GET" then ⟨method, url, some payload, none, REQUEST_TIMEOUT⟩
  else ⟨method, url, none, some payload, REQUEST_TIMEOUT⟩

/-! ## Per-task processing -/

/-- What one non-aborting task step produced: its classification, the
persisted record state after the step, the requests actually sent (one per
attempt), and the attempt/delay counts. -/
structure StepResult where
  outcome : Outcome
  record : TaskRecord
  requests : List HttpRequest
  attempts : ℕ
  delays : ℕ
deriving DecidableEq, Repr

deriving instance DecidableEq for Except

/-- Minutes elapsed since the trigger: `(current_time - trigger_time)
.total_seconds() / 60`, where the trigger instant is the naive timestamp
shifted by the zone's offset (in minutes). -/
def deltaMinutes (env : Env) (naive : ℚ) (off : ℤ) : ℚ :=
  (env.nowUTC - (naive - 60 * off)) / 60

/-- The eligible branch (`print("   🚀 准备执行...")` onwards): build the
payload from a copy of the body, run the retry loop, and on success stamp
`executed`/`executed_at` and save.  The two variant points are parameters:
`send` builds one attempt's request (`sendOnceMain` or `sendOncePkg`) and
`guardedSave` records whether the post-delivery save is wrapped in
try/except (`__init__.py`) or unguarded (`main.py`, where a write failure
propagates out of `process_tasks`). -/
def eligibleResult (env : Env) (secrets : Secrets) (fname : String) (rec : TaskRecord)
    (send : String → String → Body → HttpRequest) (guardedSave : Bool) :
    Except PyErr StepResult :=
  let method := pyUpper (rec.method.getD "POST")
  let payload := resolvePayload rec.body secrets
  let tr := deliver (env.transport rec.webhook_url)
  let reqs := List.replicate tr.attempts (send method rec.webhook_url payload)
  if tr.success then
    let rec2 := { rec with executed := true, executed_at := some env.nowStr }
    if env.saveOk fname then .ok ⟨.deliveredSaved, rec2, reqs, tr.attempts, tr.delays⟩
    else if guardedSave then .ok ⟨.deliveredUnsaved, rec, reqs, tr.attempts, tr.delays⟩
    else .error .ioError
  else .ok ⟨.failed, rec, reqs, tr.attempts, tr.delays⟩

/-- The window check (`if 0 <= diff_minutes <= TOLERANCE_MINUTES`, else
`diff_minutes < 0` not yet due, else expired), entered once the trigger
parsed and the zone resolved. -/
def dispatchFrom (env : Env) (secrets : Secrets) (fname : String) (rec : TaskRecord)
    (naive : ℚ) (off : ℤ) (send : String → String → Body → HttpRequest)
    (guardedSave : Bool) : Except PyErr StepResult :=
  if 0 ≤ deltaMinutes env naive off ∧ deltaMinutes env naive off ≤ TOLERANCE_MINUTES then
    eligibleResult env secrets fname rec send guardedSave
  else if deltaMinutes env naive off < 0 then .ok ⟨.notYetDue, rec, [], 0, 0⟩
  else .ok ⟨.expired, rec, [], 0, 0⟩

/-- One task step of `src/main.py` `process_tasks`: skip when `executed` is
`True`; skip when `trigger_time` is absent or falsy; then inside the
`try/except ValueError` block parse the trigger string first (`strptime`,
`ValueError` caught as a skip) and then look up the zone
(`ZoneInfo(tz_name)`, whose `ZoneInfoNotFoundError` is a `KeyError` and is
NOT caught — it escapes and aborts the run). -/
def runTaskMain (env : Env) (secrets : Secrets) (fname : String) (rec : TaskRecord) :
    Except PyErr StepResult :=
  if rec.executed then .ok ⟨.alreadyDone, rec, [], 0, 0⟩
  else
    match rec.trigger_time with
    | none => .ok ⟨.inert, rec, [], 0, 0⟩
    | some s =>
      if s = "" then .ok ⟨.inert, rec, [], 0, 0⟩
      else
        match env.parseNaive s with
        | none => .ok ⟨.parseSkip, rec, [], 0, 0⟩
        | some naive =>
          match env.zoneOffsetMin (rec.timezone.getD DEFAULT_TZ) with
          | none => .error .keyError
          | some off => dispatchFrom env secrets fname rec naive off sendOnceMain false

/-- One task step of the package variant: same skips, but inside the try
block the zone is looked up first (`pytz.timezone`, whose
`UnknownTimeZoneError` is a `KeyError` and is NOT caught by
`except ValueError`) and the trigger string parsed after; the save is
guarded, so a write failure is a warning, not an abort. -/
def runTaskPkg (env : Env) (secrets : Secrets) (fname : String) (rec : TaskRecord) :
    Except PyErr StepResult :=
  if rec.executed then .ok ⟨.alreadyDone, rec, [], 0, 0⟩
  else
    match rec.trigger_time with
    | none => .ok ⟨.inert, rec, [], 0, 0⟩
    | some s =>
      if s = "" then .ok ⟨.inert, rec, [], 0, 0⟩
      else
        match env.zoneOffsetMin (rec.timezone.getD DEFAULT_TZ) with
        | none => .error .keyError
        | some off =>
          match env.parseNaive s with
          | none => .ok ⟨.parseSkip, rec, [], 0, 0⟩
          | some naive => dispatchFrom env secrets fname rec naive off sendOncePkg true

/-- The run of `src/main.py` over the sorted config list: an exception
escaping one task's step aborts the whole run (remaining records are never
reached); otherwise each file's classification is collected in order. -/
def runTasksMain (env : Env) (secrets : Secrets) :
    List (String × TaskRecord) → Except PyErr (List (String × Outcome))
  | [] => .ok []
  | (f, r) :: rest =>
    match runTaskMain env secrets f r with
    | .error e => .error e
    | .ok res =>
      match runTasksMain env secrets rest with
      | .error e => .error e
      | .ok out => .ok ((f, res.outcome) :: out)

/-- The run of the package variant over the config list. -/
def runTasksPkg (env : Env) (secrets : Secrets) :
    List (String × TaskRecord) → Except PyErr (List (String × Outcome))
  | [] => .ok []
  | (f, r) :: rest =>
    match runTaskPkg env secrets f r with
    | .error e => .error e
    | .ok res =>
      match runTasksPkg env secrets rest with
      | .error e => .error e
      | .ok out => .ok ((f, res.outcome) :: out)

/-! ## Concrete fixtures

A small zone table (Shanghai at UTC+480 minutes, UTC at 0) and a parser
that knows the one well-formed trigger string `"2024-01-01 08:00:00"`
(28800 seconds into the day, naive).  In Shanghai that trigger is the
instant 0; the environments below differ in the current instant, the
transport's answers, and whether saving succeeds. -/

/-- Zone table fixture. -/
def zopt : String → Option ℤ :=
  fun z => if z = "Asia/Shanghai" then some 480 else if z = "UTC" then some 0 else none

/-- Strict-format parser fixture. -/
def ptime : String → Option ℚ :=
  fun s => if s = "2024-01-01 08:00:00" then some 28800 else none

/-- Environment: 10 minutes past the trigger, transport answers 200,
saving succeeds. -/
def envOk : Env := ⟨zopt, ptime, 600, "2024-01-01 08:10:00", fun _ _ => .status 200, fun _ => true⟩

/-- Environment: 5 minutes before the trigger. -/
def envEarly : Env := ⟨zopt, ptime, -300, "2024-01-01 07:55:00", fun _ _ => .status 200, fun _ => true⟩

/-- Environment: 45 minutes past the trigger. -/
def envLate : Env := ⟨zopt, ptime, 2700, "2024-01-01 08:45:00", fun _ _ => .status 200, fun _ => true⟩

/-- Environment: delivery succeeds but every save fails. -/
def envSaveFail : Env := ⟨zopt, ptime, 600, "2024-01-01 08:10:00", fun _ _ => .status 200, fun _ => false⟩

/-- Environment: no zone resolves, nothing parses, every attempt faults. -/
def envDead : Env := ⟨fun _ => none, fun _ => none, 0, "", fun _ _ => .fault, fun _ => false⟩

/-- A pending task due at the fixture trigger time in the default zone. -/
def recEligible : TaskRecord :=
  ⟨false, some "2024-01-01 08:00:00", none, none, "http://example.com/hook",
    some ⟨some ["iphone"], [("title", "hi")]⟩, none⟩

/-- The same task with an unknown IANA zone name. -/
def recBadZone : TaskRecord :=
  { recEligible with timezone := some "Mars/Phobos" }

/-- A task already marked executed, with a malformed trigger string and an
unknown zone. -/
def recDone : TaskRecord :=
  { recEligible with
    executed := true
    trigger_time := some "garbage"
    timezone := some "Mars/Phobos" }

/-- A body fixture for request-shape statements. -/
def pl0 : Body := ⟨some ["iphone"], [("title", "hi")]⟩

/-- A map-form credential set resolving the fixture alias. -/
def sDict : Secrets := .dict [("iphone", "k1")]

/-- Expected step result of `runTaskMain envOk sDict "a.json" recEligible`:
delivered on the first attempt and saved, with the outgoing payload
carrying the resolved key and the record's own body untouched. -/
def resOkMain : StepResult :=
  ⟨.deliveredSaved,
   { recEligible with executed := true, executed_at := some "2024-01-01 08:10:00" },
   [⟨"POST", "http://example.com/hook", none, some ⟨some ["k1"], [("title", "hi")]⟩, 20⟩],
   1, 0⟩

/-! ## Helper lemmas -/

lemma toFinset_dedup (l : List String) : l.dedup.toFinset = l.toFinset := by
  ext a
  simp [List.mem_dedup]

lemma substAliases_eq_map (d : List String) (m : List (String × String)) :
    substAliases d m = d.map (fun a => (m.lookup a).getD a) := by
  induction d with
  | nil => rfl
  | cons a rest ih => cases h : m.lookup a <;> simp [substAliases, h, ih]

lemma lookup_mem_values {m : List (String × String)} {a v : String}
    (h : m.lookup a = some v) : v ∈ m.map Prod.snd := by
  induction m with
  | nil => simp [List.lookup] at h
  | cons p rest ih =>
    obtain ⟨k, w⟩ := p
    simp only [List.lookup] at h
    split at h
    · injection h with h
      subst h
      simp
    · exact List.mem_cons_of_mem _ (ih h)

lemma substAliases_mem_fixed {m : List (String × String)}
    (hval : ∀ v ∈ m.map Prod.snd, (m.lookup v).getD v = v)
    {d : List String} {x : String} (hx : x ∈ substAliases d m) :
    (m.lookup x).getD x = x := by
  rw [substAliases_eq_map] at hx
  obtain ⟨a, _, rfl⟩ := List.mem_map.1 hx
  cases h : m.lookup a with
  | none => simp [h]
  | some v => simpa [h] using hval v (lookup_mem_values h)

lemma substAliases_fixed {m : List (String × String)} {l : List String}
    (hl : ∀ x ∈ l, (m.lookup x).getD x = x) :
    substAliases l m = l := by
  rw [substAliases_eq_map]
  exact (List.map_congr_left hl).trans (List.map_id l)

lemma deliverAux_attempts_pos (t : ℕ → AttemptOutcome) (a n : ℕ) (h : 1 ≤ n) :
    1 ≤ (deliverAux t a n).attempts := by
  cases n with
  | zero => omega
  | succ m =>
    simp only [deliverAux]
    split
    · simp
    · split
      · simp
      · simp

lemma deliver_attempts_pos (t : ℕ → AttemptOutcome) : 1 ≤ (deliver t).attempts :=
  deliverAux_attempts_pos t 1 MAX_RETRIES (by decide)

lemma eligibleResult_ok_shape {env : Env} {secrets : Secrets} {f : String}
    {rec : TaskRecord} {send : String → String → Body → HttpRequest} {g : Bool}
    {res : StepResult} (h : eligibleResult env secrets f rec send g = .ok res) :
    res.record.body = rec.body ∧
    res.requests.length = res.attempts ∧
    res.attempts = (deliver (env.transport rec.webhook_url)).attempts ∧
    ∀ q ∈ res.requests,
      q = send (pyUpper (rec.method.getD "POST")) rec.webhook_url
        (resolvePayload rec.body secrets) := by
  simp only [eligibleResult] at h
  split at h
  · split at h
    · cases h
      refine ⟨rfl, List.length_replicate _ _, rfl, fun q hq => ?_⟩
      exact List.eq_of_mem_replicate hq
    · split at h
      · cases h
        refine ⟨rfl, List.length_replicate _ _, rfl, fun q hq => ?_⟩
        exact List.eq_of_mem_replicate hq
      · exact Except.noConfusion h
  · cases h
    refine ⟨rfl, List.length_replicate _ _, rfl, fun q hq => ?_⟩
    exact List.eq_of_mem_replicate hq

lemma runTaskMain_ok_shape {env : Env} {secrets : Secrets} {f : String}
    {rec : TaskRecord} {res : StepResult} (h : runTaskMain env secrets f rec = .ok res) :
    res.record.body = rec.body ∧
    res.requests.length = res.attempts ∧
    ∀ q ∈ res.requests,
      q = sendOnceMain (pyUpper (rec.method.getD "POST")) rec.webhook_url
        (resolvePayload rec.body secrets) := by
  simp only [runTaskMain] at h
  split at h
  · cases h
    exact ⟨rfl, rfl, by simp⟩
  · split at h
    · cases h
      exact ⟨rfl, rfl, by simp⟩
    · split at h
      · cases h
        exact ⟨rfl, rfl, by simp⟩
      · split at h
        · cases h
          exact ⟨rfl, rfl, by simp⟩
        · split at h
          · exact Except.noConfusion h
          · simp only [dispatchFrom] at h
            split at h
            · obtain ⟨h1, h2, _, h4⟩ := eligibleResult_ok_shape h
              exact ⟨h1, h2, h4⟩
            · split at h
              · cases h
                exact ⟨rfl, rfl, by simp⟩
              · cases h
                exact ⟨rfl, rfl, by simp⟩

lemma runTaskPkg_ok_shape {env : Env} {secrets : Secrets} {f : String}
    {rec : TaskRecord} {res : StepResult} (h : runTaskPkg env secrets f rec = .ok res) :
    res.record.body = rec.body ∧
    res.requests.length = res.attempts ∧
    ∀ q ∈ res.requests,
      q = sendOncePkg (pyUpper (rec.method.getD "POST")) rec.webhook_url
        (resolvePayload rec.body secrets) := by
  simp only [runTaskPkg] at h
  split at h
  · cases h
    exact ⟨rfl, rfl, by simp⟩
  · split at h
    · cases h
      exact ⟨rfl, rfl, by simp⟩
    · split at h
      · cases h
        exact ⟨rfl, rfl, by simp⟩
      · split at h
        · exact Except.noConfusion h
        · split at h
          · cases h
            exact ⟨rfl, rfl, by simp⟩
          · simp only [dispatchFrom] at h
            split at h
            · obtain ⟨h1, h2, _, h4⟩ := eligibleResult_ok_shape h
              exact ⟨h1, h2, h4⟩
            · split at h
              · cases h
                exact ⟨rfl, rfl, by simp⟩
              · cases h
                exact ⟨rfl, rfl, by simp⟩

/-! ## Claims -/

/-- C1: a task record with `executed = true` is classified `AlreadyDone`
and skipped before any time parsing or window arithmetic, in both
implementations: no request is sent, its state is unchanged, whatever its
`trigger_time`, `timezone` or any malformed time values. -/
theorem C1_executed_is_terminal (env : Env) (secrets : Secrets) (f : String)
    (rec : TaskRecord) (h : rec.executed = true) :
    runTaskMain env secrets f rec = .ok ⟨.alreadyDone, rec, [], 0, 0⟩ ∧
    runTaskPkg env secrets f rec = .ok ⟨.alreadyDone, rec, [], 0, 0⟩ := by
  constructor <;> simp [runTaskMain, runTaskPkg, h]

/-- Witness for C1: a record marked executed whose trigger string is
unparseable and whose zone is unknown, in an environment where nothing
resolves, is still skipped unchanged. -/
theorem C1_witness :
    recDone.executed = true ∧
    runTaskMain envDead (.list []) "t.json" recDone = .ok ⟨.alreadyDone, recDone, [], 0, 0⟩ ∧
    runTaskPkg envDead (.list []) "t.json" recDone = .ok ⟨.alreadyDone, recDone, [], 0, 0⟩ :=
  ⟨rfl, C1_executed_is_terminal envDead (.list []) "t.json" recDone rfl⟩

/-- C5: an attempt succeeds exactly when the status code is in
`[200, 300)` and never on a transport fault; success on attempt 1 stops
the loop at one attempt with no delay; three failing attempts give
`Failed` with 3 attempts and 2 delays of `RETRY_DELAY = 2` seconds; the
three concrete transcripts of the claim evaluate as stated. -/
theorem C5_retry_protocol :
    (∀ c : ℤ, isSuccess (.status c) = true ↔ (200 ≤ c ∧ c < 300)) ∧
    isSuccess .fault = false ∧
    (∀ t : ℕ → AttemptOutcome, isSuccess (t 1) = true → deliver t = ⟨true, 1, 0⟩) ∧
    (∀ t : ℕ → AttemptOutcome, isSuccess (t 1) = false → isSuccess (t 2) = false →
      isSuccess (t 3) = false → deliver t = ⟨false, 3, 2⟩) ∧
    deliver (fun _ => .status 200) = ⟨true, 1, 0⟩ ∧
    deliver (fun _ => .status 500) = ⟨false, 3, 2⟩ ∧
    deliver (fun n => if n = 3 then .status 200 else .status 500) = ⟨true, 3, 2⟩ ∧
    RETRY_DELAY = 2 := by
  refine ⟨?_, rfl, ?_, ?_, by decide, by decide, by decide, rfl⟩
  · intro c
    simp [isSuccess]
  · intro t h
    simp [deliver, deliverAux, MAX_RETRIES, h]
  · intro t h1 h2 h3
    simp [deliver, deliverAux, MAX_RETRIES, h1, h2, h3]

/-- Witness for C5: a `204` on the first attempt is a success and stops
the loop immediately; a transport that always faults exhausts the budget. -/
theorem C5_witness :
    deliver (fun _ => .status 204) = ⟨true, 1, 0⟩ ∧ deliver (fun _ => .fault) = ⟨false, 3, 2⟩ :=
  ⟨C5_retry_protocol.2.2.1 (fun _ => .status 204) (by decide),
   C5_retry_protocol.2.2.2.1 (fun _ => .fault) (by decide) (by decide) (by decide)⟩

/-- C8: with a non-empty list-form credential set the resolved key list
is, as a set, the duplicate-free union of the declared keys and the
credential list; with an empty list-form set the declared keys come back
unchanged. -/
theorem C8_list_union (d s : List String) :
    (s ≠ [] → (resolveKeys d (.list s)).toFinset = d.toFinset ∪ s.toFinset ∧
      (resolveKeys d (.list s)).Nodup) ∧
    resolveKeys d (.list []) = d := by
  refine ⟨fun hs => ?_, by simp [resolveKeys]⟩
  have hr : resolveKeys d (.list s) = (d ++ s).dedup := by simp [resolveKeys, hs]
  rw [hr]
  refine ⟨?_, List.nodup_dedup _⟩
  rw [toFinset_dedup]
  exact List.toFinset_append

/-- Witness for C8: declared `["a", "k"]` with injected `["k", "b"]`
resolves to the union with the shared `"k"` present once. -/
theorem C8_witness :
    (resolveKeys ["a", "k"] (.list ["k", "b"])).toFinset =
      (["a", "k"] : List String).toFinset ∪ (["k", "b"] : List String).toFinset ∧
    (resolveKeys ["a", "k"] (.list ["k", "b"])).Nodup :=
  (C8_list_union ["a", "k"] ["k", "b"]).1 (by decide)

/-- C9: with a map-form credential set a non-empty declared list is
resolved position by position — an alias that is a key of the map becomes
its mapped value, any other alias passes through literally — preserving
order and length; an empty declared list yields all values of a non-empty
map, and stays empty when the map is empty. -/
theorem C9_map_substitution (d : List String) (m : List (String × String)) :
    (d ≠ [] → resolveMapAll d m = d.map (fun a => (m.lookup a).getD a)) ∧
    resolveMapAll [] m = (if m = [] then [] else m.map Prod.snd) := by
  constructor
  · intro hd
    simp [resolveMapAll, hd, substAliases_eq_map]
  · by_cases hm : m = [] <;> simp [resolveMapAll, hm, substAliases]

/-- Witness for C9: the known alias `"iphone"` is replaced, the unknown
alias `"x"` passes through, order preserved. -/
theorem C9_witness : resolveMapAll ["iphone", "x"] [("iphone", "k1")] = ["k1", "x"] :=
  ((C9_map_substitution ["iphone", "x"] [("iphone", "k1")]).1 (by decide)).trans (by decide)

/-- C10 counterexample: with the map `{"a" ↦ "b", "b" ↦ "c"}` and declared
list `["a"]`, one resolution gives `["b"]` but resolving that output again
gives `["c"]`: map-form resolution is not idempotent as claimed. -/
theorem C10_counterexample :
    resolveMapAll (resolveMapAll ["a"] [("a", "b"), ("b", "c")]) [("a", "b"), ("b", "c")] ≠
      resolveMapAll ["a"] [("a", "b"), ("b", "c")] := by decide

/-- C10 amended: list-form resolution is idempotent up to set equality;
map-form resolution is idempotent provided no value of the map is itself
an alias key bound to a different value. -/
theorem C10_idempotent_amended :
    (∀ d s : List String, (resolveKeys (resolveKeys d (.list s)) (.list s)).toFinset =
      (resolveKeys d (.list s)).toFinset) ∧
    (∀ (d : List String) (m : List (String × String)),
      (∀ v ∈ m.map Prod.snd, (m.lookup v).getD v = v) →
      resolveMapAll (resolveMapAll d m) m = resolveMapAll d m) := by
  constructor
  · intro d s
    by_cases hs : s = []
    · simp [resolveKeys, hs]
    · simp only [resolveKeys, if_neg hs]
      ext a
      simp [List.mem_dedup]
  · intro d m hval
    by_cases hd : d = []
    · subst hd
      by_cases hm : m = []
      · subst hm
        decide
      · have h1 : resolveMapAll [] m = m.map Prod.snd := by
          simp [resolveMapAll, hm]
        have hv : m.map Prod.snd ≠ [] := fun hc => hm (List.map_eq_nil_iff.mp hc)
        rw [h1, resolveMapAll, if_neg (fun hc => hv hc.1)]
        exact substAliases_fixed hval
    · have h1 : resolveMapAll d m = substAliases d m := by
        simp [resolveMapAll, hd]
      have hv : substAliases d m ≠ [] := by
        rw [substAliases_eq_map]
        exact fun hc => hd (List.map_eq_nil_iff.mp hc)
      rw [h1, resolveMapAll, if_neg (fun hc => hv hc.1)]
      exact substAliases_fixed (fun x hx => substAliases_mem_fixed hval hx)

/-- Witness for C10 amended: the map `{"x" ↦ "y"}` has no value that is a
key, so resolving twice from `["x"]` equals resolving once. -/
theorem C10_witness :
    resolveMapAll (resolveMapAll ["x"] [("x", "y")]) [("x", "y")] =
      resolveMapAll ["x"] [("x", "y")] :=
  C10_idempotent_amended.2 ["x"] [("x", "y")] (by decide)

/-- C2: for a pending task whose trigger parses and whose zone resolves,
with `delta` minutes elapsed since the trigger: `delta < 0` is not yet due
and nothing is dispatched; `delta > 30` is expired, nothing is dispatched
and `executed` stays false; `0 ≤ delta ≤ 30` (both boundaries included) is
eligible and delivery is attempted at least once — in both
implementations. -/
theorem C2_window_classification (env : Env) (secrets : Secrets) (f : String)
    (rec : TaskRecord) (s : String) (naive : ℚ) (off : ℤ)
    (hex : rec.executed = false) (ht : rec.trigger_time = some s) (hs : s ≠ "")
    (hp : env.parseNaive s = some naive)
    (hz : env.zoneOffsetMin (rec.timezone.getD DEFAULT_TZ) = some off) :
    (deltaMinutes env naive off < 0 →
      runTaskMain env secrets f rec = .ok ⟨.notYetDue, rec, [], 0, 0⟩ ∧
      runTaskPkg env secrets f rec = .ok ⟨.notYetDue, rec, [], 0, 0⟩) ∧
    (TOLERANCE_MINUTES < deltaMinutes env naive off →
      runTaskMain env secrets f rec = .ok ⟨.expired, rec, [], 0, 0⟩ ∧
      runTaskPkg env secrets f rec = .ok ⟨.expired, rec, [], 0, 0⟩) ∧
    (0 ≤ deltaMinutes env naive off → deltaMinutes env naive off ≤ TOLERANCE_MINUTES →
      runTaskMain env secrets f rec = eligibleResult env secrets f rec sendOnceMain false ∧
      runTaskPkg env secrets f rec = eligibleResult env secrets f rec sendOncePkg true ∧
      1 ≤ (deliver (env.transport rec.webhook_url)).attempts) := by
  have hmain : runTaskMain env secrets f rec =
      dispatchFrom env secrets f rec naive off sendOnceMain false := by
    simp [runTaskMain, hex, ht, hs, hp, hz]
  have hpkg : runTaskPkg env secrets f rec =
      dispatchFrom env secrets f rec naive off sendOncePkg true := by
    simp [runTaskPkg, hex, ht, hs, hp, hz]
  refine ⟨fun h => ?_, fun h => ?_, fun h0 h30 => ?_⟩
  · have hc : ¬(0 ≤ deltaMinutes env naive off ∧
        deltaMinutes env naive off ≤ TOLERANCE_MINUTES) := by
      intro hc
      linarith [hc.1]
    rw [hmain, hpkg, dispatchFrom, dispatchFrom, if_neg hc, if_neg hc, if_pos h]
    exact ⟨rfl, rfl⟩
  · have hc : ¬(0 ≤ deltaMinutes env naive off ∧
        deltaMinutes env naive off ≤ TOLERANCE_MINUTES) := by
      intro hc
      linarith [hc.2]
    have hneg : ¬deltaMinutes env naive off < 0 := by
      have h30 : (0 : ℚ) ≤ TOLERANCE_MINUTES := by norm_num [TOLERANCE_MINUTES]
      linarith
    rw [hmain, hpkg, dispatchFrom, dispatchFrom, if_neg hc, if_neg hc, if_neg hneg]
    exact ⟨rfl, rfl⟩
  · rw [hmain, hpkg, dispatchFrom, dispatchFrom, if_pos ⟨h0, h30⟩, if_pos ⟨h0, h30⟩]
    exact ⟨rfl, rfl, deliver_attempts_pos _⟩

/-- Witness for C2: the fixture task 5 minutes early is not yet due, 45
minutes late is expired, and 10 minutes late enters the eligible dispatch
branch. -/
theorem C2_witness :
    runTaskMain envEarly (.list []) "a.json" recEligible = .ok ⟨.notYetDue, recEligible, [], 0, 0⟩ ∧
    runTaskMain envLate (.list []) "a.json" recEligible = .ok ⟨.expired, recEligible, [], 0, 0⟩ ∧
    runTaskMain envOk (.list []) "a.json" recEligible =
      eligibleResult envOk (.list []) "a.json" recEligible sendOnceMain false := by
  refine ⟨?_, ?_, ?_⟩
  · exact ((C2_window_classification envEarly (.list []) "a.json" recEligible
      "2024-01-01 08:00:00" 28800 480 rfl rfl (by decide) (by decide) (by decide)).1
      (by norm_num [deltaMinutes, envEarly])).1
  · exact ((C2_window_classification envLate (.list []) "a.json" recEligible
      "2024-01-01 08:00:00" 28800 480 rfl rfl (by decide) (by decide) (by decide)).2.1
      (by norm_num [deltaMinutes, envLate, TOLERANCE_MINUTES])).1
  · exact ((C2_window_classification envOk (.list []) "a.json" recEligible
      "2024-01-01 08:00:00" 28800 480 rfl rfl (by decide) (by decide) (by decide)).2.2
      (by norm_num [deltaMinutes, envOk])
      (by norm_num [deltaMinutes, envOk, TOLERANCE_MINUTES])).1

/-- C3 (code bug): a pending task naming an unknown zone makes both
implementations raise an uncaught zone-lookup error (`KeyError` subclass,
not caught by `except ValueError`) instead of falling back to a default
zone: the whole run aborts and the following record is never processed. -/
theorem C3_unknown_zone_aborts :
    runTasksMain envOk (.list []) [("a.json", recBadZone), ("b.json", recEligible)] =
      .error .keyError ∧
    runTasksPkg envOk (.list []) [("a.json", recBadZone), ("b.json", recEligible)] =
      .error .keyError ∧
    runTaskMain envOk (.list []) "a.json" recBadZone = .error .keyError ∧
    runTaskPkg envOk (.list []) "a.json" recBadZone = .error .keyError := by
  refine ⟨?_, ?_, ?_, ?_⟩ <;> decide

/-- C4 counterexample: a task configured with method `PUT` (upper-cased
from `"put"`) is sent by `main.py` as a `POST` request — `requests.post`
is used for every non-GET verb — so the request does not use the task's
configured method as claimed. -/
theorem C4_counterexample :
    pyUpper "put" = "PUT" ∧
    (sendOnceMain (pyUpper "put") "http://example.com/hook" pl0).verb = "POST" ∧
    (sendOnceMain (pyUpper "put") "http://example.com/hook" pl0).verb ≠ "PUT" := by
  refine ⟨by decide, by decide, by decide⟩

/-- C4 amended: each attempt sends exactly one request (the request list
has one entry per attempt) with a fixed 20-second timeout; `GET` sends the
payload as query parameters; any other configured verb sends the payload
as a request body — `main.py` issues it with wire verb `POST` regardless
of the configured verb, while the package binding passes the configured
verb through. -/
theorem C4_request_shape :
    (∀ (method url : String) (p : Body),
      (sendOnceMain method url p).timeoutSec = REQUEST_TIMEOUT ∧
      (sendOncePkg method url p).timeoutSec = REQUEST_TIMEOUT ∧
      (method = "GET" →
        sendOnceMain method url p = ⟨"GET", url, some p, none, 20⟩ ∧
        sendOncePkg method url p = ⟨"GET", url, some p, none, 20⟩) ∧
      (method ≠ "GET" →
        sendOnceMain method url p = ⟨"POST", url, none, some p, 20⟩ ∧
        sendOncePkg method url p = ⟨method, url, none, some p, 20⟩)) ∧
    (∀ (env : Env) (secrets : Secrets) (f : String) (rec : TaskRecord) (res : StepResult),
      runTaskMain env secrets f rec = .ok res → res.requests.length = res.attempts) ∧
    (∀ (env : Env) (secrets : Secrets) (f : String) (rec : TaskRecord) (res : StepResult),
      runTaskPkg env secrets f rec = .ok res → res.requests.length = res.attempts) ∧
    REQUEST_TIMEOUT = 20 := by
  refine ⟨fun method url p => ⟨?_, ?_, fun hG => ?_, fun hN => ?_⟩,
    fun env secrets f rec res h => (runTaskMain_ok_shape h).2.1,
    fun env secrets f rec res h => (runTaskPkg_ok_shape h).2.1, rfl⟩
  · unfold sendOnceMain
    split <;> rfl
  · unfold sendOncePkg
    split <;> rfl
  · subst hG
    exact ⟨by simp [sendOnceMain, REQUEST_TIMEOUT], by simp [sendOncePkg, REQUEST_TIMEOUT]⟩
  · exact ⟨by simp [sendOnceMain, hN, REQUEST_TIMEOUT], by simp [sendOncePkg, hN, REQUEST_TIMEOUT]⟩

/-- Witness for C4 amended: a `GET` goes out as `GET` with query payload
in both variants; a configured `PUT` goes out as `POST` in `main.py` and
as `PUT` in the package; a skipped task has as many requests as
attempts (zero of each). -/
theorem C4_witness :
    sendOnceMain "GET" "u" pl0 = ⟨"GET", "u", some pl0, none, 20⟩ ∧
    sendOncePkg "PUT" "u" pl0 = ⟨"PUT", "u", none, some pl0, 20⟩ ∧
    (⟨.alreadyDone, recDone, [], 0, 0⟩ : StepResult).requests.length =
      (⟨.alreadyDone, recDone, [], 0, 0⟩ : StepResult).attempts :=
  ⟨((C4_request_shape.1 "GET" "u" pl0).2.2.1 rfl).1,
   ((C4_request_shape.1 "PUT" "u" pl0).2.2.2 (by decide)).2,
   C4_request_shape.2.1 envDead (.list []) "t.json" recDone
     ⟨.alreadyDone, recDone, [], 0, 0⟩ (by decide)⟩

/-- C6 counterexample: in `main.py` the post-delivery write is not inside
a try/except, so when delivery succeeds but the save fails the exception
escapes `process_tasks`: the run aborts with the write error and the
following record is never processed — the failure is not a warning and
the run does not continue. -/
theorem C6_counterexample :
    runTasksMain envSaveFail (.list []) [("a.json", recEligible), ("b.json", recEligible)] =
      .error .ioError := by
  norm_num [runTasksMain, runTaskMain, dispatchFrom, deltaMinutes, envSaveFail, recEligible,
    zopt, ptime, DEFAULT_TZ, TOLERANCE_MINUTES]
  decide

/-- C6 amended: in the package variant a persistence failure after a
successful delivery is a warning only — the outcome is still a delivery
(`deliveredUnsaved`), the already-sent payload is not rolled back, the
local record is simply left unsaved, and the run continues with the
remaining records; in `main.py` the same situation aborts the run with
the uncaught write error. -/
theorem C6_persist_failure (env : Env) (secrets : Secrets) (f : String)
    (rec : TaskRecord) (s : String) (naive : ℚ) (off : ℤ)
    (hex : rec.executed = false) (ht : rec.trigger_time = some s) (hs : s ≠ "")
    (hp : env.parseNaive s = some naive)
    (hz : env.zoneOffsetMin (rec.timezone.getD DEFAULT_TZ) = some off)
    (h0 : 0 ≤ deltaMinutes env naive off)
    (h30 : deltaMinutes env naive off ≤ TOLERANCE_MINUTES)
    (hdel : (deliver (env.transport rec.webhook_url)).success = true)
    (hsave : env.saveOk f = false) :
    runTaskPkg env secrets f rec = .ok ⟨.deliveredUnsaved, rec,
      List.replicate (deliver (env.transport rec.webhook_url)).attempts
        (sendOncePkg (pyUpper (rec.method.getD "POST")) rec.webhook_url
          (resolvePayload rec.body secrets)),
      (deliver (env.transport rec.webhook_url)).attempts,
      (deliver (env.transport rec.webhook_url)).delays⟩ ∧
    runTaskMain env secrets f rec = .error .ioError ∧
    (∀ (rest : List (String × TaskRecord)) (out : List (String × Outcome)),
      runTasksPkg env secrets rest = .ok out →
      runTasksPkg env secrets ((f, rec) :: rest) = .ok ((f, .deliveredUnsaved) :: out)) := by
  have hpkg : runTaskPkg env secrets f rec = .ok ⟨.deliveredUnsaved, rec,
      List.replicate (deliver (env.transport rec.webhook_url)).attempts
        (sendOncePkg (pyUpper (rec.method.getD "POST")) rec.webhook_url
          (resolvePayload rec.body secrets)),
      (deliver (env.transport rec.webhook_url)).attempts,
      (deliver (env.transport rec.webhook_url)).delays⟩ := by
    have h1 : runTaskPkg env secrets f rec =
        dispatchFrom env secrets f rec naive off sendOncePkg true := by
      simp [runTaskPkg, hex, ht, hs, hp, hz]
    rw [h1, dispatchFrom, if_pos ⟨h0, h30⟩]
    simp only [eligibleResult, hdel, if_true]
    rw [if_neg (by simp [hsave])]
  have hmain : runTaskMain env secrets f rec = .error .ioError := by
    have h1 : runTaskMain env secrets f rec =
        dispatchFrom env secrets f rec naive off sendOnceMain false := by
      simp [runTaskMain, hex, ht, hs, hp, hz]
    rw [h1, dispatchFrom, if_pos ⟨h0, h30⟩]
    simp only [eligibleResult]
    rw [if_pos hdel, if_neg (by simp [hsave])]
    rfl
  refine ⟨hpkg, hmain, fun rest out hrest => ?_⟩
  rw [runTasksPkg, hpkg, hrest]

/-- Witness for C6 amended: the save-failing fixture environment delivers
the eligible task, reports it unsaved, and the single-task run still
produces a normal outcome list. -/
theorem C6_witness :
    runTaskPkg envSaveFail (.list []) "a.json" recEligible =
      .ok ⟨.deliveredUnsaved, recEligible,
        [⟨"POST", "http://example.com/hook", none,
          some ⟨some ["iphone"], [("title", "hi")]⟩, 20⟩], 1, 0⟩ ∧
    runTaskMain envSaveFail (.list []) "a.json" recEligible = .error .ioError ∧
    runTasksPkg envSaveFail (.list []) [("a.json", recEligible)] =
      .ok [("a.json", .deliveredUnsaved)] := by
  have h := C6_persist_failure envSaveFail (.list []) "a.json" recEligible
    "2024-01-01 08:00:00" 28800 480 rfl rfl (by decide) (by decide) (by decide)
    (by norm_num [deltaMinutes, envSaveFail])
    (by norm_num [deltaMinutes, envSaveFail, TOLERANCE_MINUTES])
    (by decide) rfl
  exact ⟨h.1.trans (by decide), h.2.1, h.2.2 [] [] rfl⟩

/-- C7: credential resolution operates on an independent copy of the
task's body: whatever a step returns, the retained record's `body`
(including its `device_keys` list) is exactly the input record's `body`,
and only the outgoing requests carry the resolved payload — in both
implementations. -/
theorem C7_body_not_mutated (env : Env) (secrets : Secrets) (f : String)
    (rec : TaskRecord) (res : StepResult) :
    (runTaskMain env secrets f rec = .ok res →
      res.record.body = rec.body ∧
      ∀ q ∈ res.requests,
        q.queryPayload = some (resolvePayload rec.body secrets) ∨
        q.bodyPayload = some (resolvePayload rec.body secrets)) ∧
    (runTaskPkg env secrets f rec = .ok res →
      res.record.body = rec.body ∧
      ∀ q ∈ res.requests,
        q.queryPayload = some (resolvePayload rec.body secrets) ∨
        q.bodyPayload = some (resolvePayload rec.body secrets)) := by
  constructor
  · intro h
    obtain ⟨h1, _, h3⟩ := runTaskMain_ok_shape h
    refine ⟨h1, fun q hq => ?_⟩
    rw [h3 q hq]
    unfold sendOnceMain
    split
    · left
      rfl
    · right
      rfl
  · intro h
    obtain ⟨h1, _, h3⟩ := runTaskPkg_ok_shape h
    refine ⟨h1, fun q hq => ?_⟩
    rw [h3 q hq]
    unfold sendOncePkg
    split
    · left
      rfl
    · right
      rfl

/-- Witness for C7: running the eligible fixture with a dict credential
set delivers a payload whose `device_keys` is the resolved `["k1"]`, while
the persisted record's body still declares `["iphone"]`. -/
theorem C7_witness :
    runTaskMain envOk sDict "a.json" recEligible = .ok resOkMain ∧
    resOkMain.record.body = recEligible.body ∧
    ∀ q ∈ resOkMain.requests,
      q.queryPayload = some (resolvePayload recEligible.body sDict) ∨
      q.bodyPayload = some (resolvePayload recEligible.body sDict) := by
  have h : runTaskMain envOk sDict "a.json" recEligible = .ok resOkMain := by
    norm_num [runTaskMain, dispatchFrom, deltaMinutes, envOk, recEligible,
      zopt, ptime, DEFAULT_TZ, TOLERANCE_MINUTES]
    decide
  exact ⟨h, (C7_body_not_mutated envOk sDict "a.json" recEligible resOkMain).1 h⟩

end TTT
